import Mathlib

/-!
Verification of the Humidistat acquisition-and-control core
(`src_python/main.py`, `src_python/humidistat_qdev.py`,
`src_python/humidistat_gui.py`) against its specification.

Python floats are modelled as exact rationals (`ℚ`); all the values the
theorems touch are exactly representable as IEEE doubles, so the rational
arithmetic coincides with the float arithmetic of the source on these
inputs. Python `int` is modelled as `ℤ`. Qt widget plumbing is dropped:
each GUI slot is embedded as a function from its parsed text-box content
and the current shared state/config to the updated state/config, and each
serial `send(dev.write, cmd)` call is recorded as an element of a returned
`List String` of wire commands, in emission order.
-/

namespace Humidistat

/-- Enum `ControlMode` of `humidistat_qdev.py` (lines 20-22). -/
inductive ControlMode where
  | Manual
  | Auto
deriving DecidableEq

/-- Enum `ControlBand` of `humidistat_qdev.py` (lines 25-28). -/
inductive ControlBand where
  | Coarse
  | Fine
  | Dead
deriving DecidableEq

/-- Class `Actuators` of `humidistat_qdev.py` (lines 31-40): which
actuators to enable to either increase or decrease the humidity. -/
structure Actuators where
  ENA_valve_1 : Bool
  ENA_valve_2 : Bool
  ENA_pump : Bool
deriving DecidableEq

/-- Class `Humidistat_qdev.State` of `humidistat_qdev.py` (lines 44-63):
the actual readings of the Arduino plus the control state. It is a
superset of the `State` class of `main.py` (lines 81-96), which holds the
same ten reading fields; `DAQ_function` below only touches those ten.
The `np.nan` initial sensor values are outside the rational model, so no
distinguished initial `State` is defined; theorems quantify over states. -/
structure State where
  time : ℚ
  valve_1 : Bool
  valve_2 : Bool
  pump : Bool
  temp_1 : ℚ
  temp_2 : ℚ
  humi_1 : ℚ
  humi_2 : ℚ
  pres_1 : ℚ
  pres_2 : ℚ
  setpoint : ℤ
  control_mode : ControlMode
  control_band : ControlBand
  control_band_prev : Option ControlBand
  t_burst : ℚ
deriving DecidableEq

/-- Class `Humidistat_qdev.Config` of `humidistat_qdev.py` (lines 65-83). -/
structure Config where
  actors_incr_RH : Actuators
  actors_decr_RH : Actuators
  act_on_sensor_no : ℤ
  fineband_dHI : ℚ
  fineband_dLO : ℚ
  deadband_dHI : ℚ
  deadband_dLO : ℚ
  burst_update_period : ℤ
  burst_incr_RH_length : ℤ
  burst_decr_RH_length : ℤ
deriving DecidableEq

/-- Default `Config` values from `Config.__init__` (`humidistat_qdev.py`
lines 65-83): `actors_incr_RH = Actuators(True, False, True)`,
`actors_decr_RH = Actuators(False, True, True)`, sensor 1, fine band
(-2, +2), dead band (-0.5, +0.5), burst period 10 s, burst lengths
1000 ms. -/
def Config.init : Config where
  actors_incr_RH := ⟨true, false, true⟩
  actors_decr_RH := ⟨false, true, true⟩
  act_on_sensor_no := 1
  fineband_dHI := 2
  fineband_dLO := -2
  deadband_dHI := mkRat 1 2       -- +0.5 in the source
  deadband_dLO := -(mkRat 1 2)    -- -0.5 in the source
  burst_update_period := 10
  burst_incr_RH_length := 1000
  burst_decr_RH_length := 1000

/-- Result of Python `"%u" % flag` on a `bool`: `"1"` for `True`,
`"0"` for `False`. -/
def boolBit (b : Bool) : String := if b then "1" else "0"

/-- Function `DAQ_function` of `main.py` (lines 568-624), the per-cycle
acquisition step. `query` models the result of
`ard.query_ascii_values("?", delimiter="\t")`: `none` when the query
reports failure, `some fields` with the tab-split fields each parsed as a
float otherwise. `tLocal` models `time.perf_counter()`. The source's
tuple unpacking into the ten state attributes raises before any attribute
store when the field count is not exactly 10 (CPython checks the length
before the stores), which the 10-element list pattern mirrors; on any
failure path the function returns `False` with the state untouched.
Chart/logging side effects are dropped. -/
def DAQ_function (query : Option (List ℚ)) (tLocal : ℚ) (s : State) :
    Bool × State :=
  match query with
  | none => (false, s)
  | some tmp_state =>
    match tmp_state with
    | [t, v1, v2, p, h1, h2, tp1, tp2, pr1, pr2] =>
      let s1 : State :=
        { s with
          time := t / 1000    -- Arduino time, [msec] to [s]
          valve_1 := v1 != 0  -- bool() truthiness of the numeric value
          valve_2 := v2 != 0
          pump := p != 0
          humi_1 := h1
          humi_2 := h2
          temp_1 := tp1
          temp_2 := tp2
          pres_1 := pr1 / 100  -- [Pa] to [mbar]
          pres_2 := pr2 / 100 }
      -- "We will use PC time instead" (line 610)
      (true, { s1 with time := tLocal })
    | _ => (false, s)

/-- C2: End-to-end decode of the ten-field reply
`1000, 1, 0, 1, 45.2, 44.8, 22.1, 22.3, 101325, 101300` (device field
order time_ms, valve_1, valve_2, pump, humidity_1, humidity_2,
temperature_1, temperature_2, pressure_1, pressure_2): the cycle succeeds
with valve_1 = true, valve_2 = false, pump = true, humi_1 = 45.2,
humi_2 = 44.8, temp_1 = 22.1, temp_2 = 22.3, pres_1 = 1013.25,
pres_2 = 1013.00 (pressures divided by 100, Pa to mbar), and the time
field holds the local monotonic clock value, not the device time. -/
theorem DAQ_function_example_line (tLocal : ℚ) (s : State) :
    (DAQ_function (some [1000, 1, 0, 1, 45.2, 44.8, 22.1, 22.3, 101325, 101300])
        tLocal s).1 = true ∧
    ((DAQ_function (some [1000, 1, 0, 1, 45.2, 44.8, 22.1, 22.3, 101325, 101300])
        tLocal s).2.valve_1 = true ∧
      (DAQ_function (some [1000, 1, 0, 1, 45.2, 44.8, 22.1, 22.3, 101325, 101300])
        tLocal s).2.valve_2 = false ∧
      (DAQ_function (some [1000, 1, 0, 1, 45.2, 44.8, 22.1, 22.3, 101325, 101300])
        tLocal s).2.pump = true) ∧
    ((DAQ_function (some [1000, 1, 0, 1, 45.2, 44.8, 22.1, 22.3, 101325, 101300])
        tLocal s).2.humi_1 = 45.2 ∧
      (DAQ_function (some [1000, 1, 0, 1, 45.2, 44.8, 22.1, 22.3, 101325, 101300])
        tLocal s).2.humi_2 = 44.8 ∧
      (DAQ_function (some [1000, 1, 0, 1, 45.2, 44.8, 22.1, 22.3, 101325, 101300])
        tLocal s).2.temp_1 = 22.1 ∧
      (DAQ_function (some [1000, 1, 0, 1, 45.2, 44.8, 22.1, 22.3, 101325, 101300])
        tLocal s).2.temp_2 = 22.3 ∧
      (DAQ_function (some [1000, 1, 0, 1, 45.2, 44.8, 22.1, 22.3, 101325, 101300])
        tLocal s).2.pres_1 = 1013.25 ∧
      (DAQ_function (some [1000, 1, 0, 1, 45.2, 44.8, 22.1, 22.3, 101325, 101300])
        tLocal s).2.pres_2 = 1013) ∧
    (DAQ_function (some [1000, 1, 0, 1, 45.2, 44.8, 22.1, 22.3, 101325, 101300])
        tLocal s).2.time = tLocal := by
  refine ⟨rfl, ⟨by norm_num [DAQ_function], by norm_num [DAQ_function],
      by norm_num [DAQ_function]⟩,
    ⟨by norm_num [DAQ_function], by norm_num [DAQ_function],
     by norm_num [DAQ_function], by norm_num [DAQ_function],
     by norm_num [DAQ_function], by norm_num [DAQ_function]⟩, rfl⟩

/-- C4: Sample atomicity on failure: if the query fails, or the reply
does not unpack into exactly 10 fields, `DAQ_function` reports failure
(`false`) and the shared `State` is returned unchanged in every field —
a partially parsed line is never partially applied. -/
theorem DAQ_function_atomic_on_failure :
    (∀ (tLocal : ℚ) (s : State), DAQ_function none tLocal s = (false, s)) ∧
    (∀ (l : List ℚ) (tLocal : ℚ) (s : State), l.length ≠ 10 →
      DAQ_function (some l) tLocal s = (false, s)) := by
  constructor
  · intro tLocal s
    rfl
  · intro l tLocal s h
    rcases l with _ | ⟨a, _ | ⟨b, _ | ⟨c, _ | ⟨d, _ | ⟨e, _ | ⟨f, _ | ⟨g,
      _ | ⟨i, _ | ⟨j, _ | ⟨k, _ | ⟨m, rest⟩⟩⟩⟩⟩⟩⟩⟩⟩⟩⟩ <;>
      first
        | rfl
        | exact absurd rfl h

/-- Witness for C4 at a concrete short reply: a 3-field line is rejected
and leaves a concrete state untouched. -/
theorem DAQ_function_atomic_on_failure_witness :
    DAQ_function (some [1, 2, 3]) 7
        ⟨0, false, false, false, 0, 0, 0, 0, 0, 0, 50,
          ControlMode.Manual, ControlBand.Coarse, none, 0⟩ =
      (false,
        ⟨0, false, false, false, 0, 0, 0, 0, 0, 0, 50,
          ControlMode.Manual, ControlBand.Coarse, none, 0⟩) :=
  DAQ_function_atomic_on_failure.2 [1, 2, 3] 7
    ⟨0, false, false, false, 0, 0, 0, 0, 0, 0, 50,
      ControlMode.Manual, ControlBand.Coarse, none, 0⟩ (by decide)

/-- Method `Humidistat_qdev.set_valve_1` of `humidistat_qdev.py` (lines
116-118): sends `"v1%u" % flag` only when the stored `state.valve_1`
differs from `flag`. The method mutates nothing: `state.valve_1` is only
updated by telemetry. The returned list holds the wire commands sent. -/
def set_valve_1 (s : State) (flag : Bool) : List String :=
  if !(s.valve_1 == flag) then ["v1" ++ boolBit flag] else []

/-- Method `Humidistat_qdev.set_actuators` of `humidistat_qdev.py` (lines
128-134): sends `"a%u%u%u" % (valve_1, valve_2, pump)` when any of the
three desired flags differs from the stored state; mutates nothing. -/
def set_actuators (s : State) (valve_1 valve_2 pump : Bool) : List String :=
  if !(s.valve_1 == valve_1) || !(s.valve_2 == valve_2) || !(s.pump == pump)
  then ["a" ++ boolBit valve_1 ++ boolBit valve_2 ++ boolBit pump]
  else []

/-- Method `Humidistat_qdev.burst_incr_RH` of `humidistat_qdev.py` (lines
136-143): unconditionally sends `"b%u%u%u%u"` with the three enable bits
of the increase-RH actuator profile followed by the burst length in ms as
a decimal integer, all without separators. (Python 3 `%u` formats an
`int` exactly like `%d`.) -/
def burst_incr_RH (c : Config) : List String :=
  ["b" ++ boolBit c.actors_incr_RH.ENA_valve_1
      ++ boolBit c.actors_incr_RH.ENA_valve_2
      ++ boolBit c.actors_incr_RH.ENA_pump
      ++ toString c.burst_incr_RH_length]

/-- Method `Humidistat_qdev.burst_decr_RH` of `humidistat_qdev.py` (lines
145-152): the decrease-RH counterpart of `burst_incr_RH`. -/
def burst_decr_RH (c : Config) : List String :=
  ["b" ++ boolBit c.actors_decr_RH.ENA_valve_1
      ++ boolBit c.actors_decr_RH.ENA_valve_2
      ++ boolBit c.actors_decr_RH.ENA_pump
      ++ toString c.burst_decr_RH_length]

/-- C3 counterexample: the claim "issuing `set_valve_1(true)` twice in a
row, with no intervening telemetry update, results in exactly one wire
write" is false: from a state with `valve_1 = false` (and unchanged
between the calls, since `set_valve_1` never updates the stored state),
both calls pass the de-dup check and two identical `"v11"` writes go to
the wire. -/
theorem set_valve_1_twice_two_writes :
    set_valve_1
        ⟨0, false, false, false, 0, 0, 0, 0, 0, 0, 50,
          ControlMode.Manual, ControlBand.Coarse, none, 0⟩ true ++
      set_valve_1
        ⟨0, false, false, false, 0, 0, 0, 0, 0, 0, 50,
          ControlMode.Manual, ControlBand.Coarse, none, 0⟩ true =
      ["v11", "v11"] ∧
    (["v11", "v11"] : List String).length ≠ 1 := by
  constructor
  · rfl
  · decide

/-- C3 amended: `set_valve_1(flag)` writes `"v1"+bit` to the wire exactly
when the stored `state.valve_1` differs from `flag`, and the call itself
leaves the stored state untouched; hence two identical calls with no
intervening telemetry update both write (stored state differs) or both
stay silent (stored state matches), and the second call is suppressed
precisely when a telemetry update between the calls has recorded
`valve_1 = flag`. -/
theorem set_valve_1_dedup_amended (s : State) (flag : Bool)
    (hdiff : s.valve_1 ≠ flag) :
    set_valve_1 s flag ++ set_valve_1 s flag =
      ["v1" ++ boolBit flag, "v1" ++ boolBit flag] ∧
    set_valve_1 { s with valve_1 := flag } flag = [] := by
  constructor
  · have hb : (s.valve_1 == flag) = false := by
      cases hv : s.valve_1 <;> cases hf : flag <;> simp_all
    simp [set_valve_1, hb]
  · simp [set_valve_1]

/-- Witness for C3's amended theorem at a concrete state with
`valve_1 = false` and `flag = true`. -/
theorem set_valve_1_dedup_amended_witness :
    set_valve_1
        ⟨0, false, true, false, 0, 0, 0, 0, 0, 0, 50,
          ControlMode.Manual, ControlBand.Coarse, none, 0⟩ true ++
      set_valve_1
        ⟨0, false, true, false, 0, 0, 0, 0, 0, 0, 50,
          ControlMode.Manual, ControlBand.Coarse, none, 0⟩ true =
      ["v1" ++ boolBit true, "v1" ++ boolBit true] ∧
    set_valve_1
        ⟨0, true, true, false, 0, 0, 0, 0, 0, 0, 50,
          ControlMode.Manual, ControlBand.Coarse, none, 0⟩ true = [] :=
  set_valve_1_dedup_amended
    ⟨0, false, true, false, 0, 0, 0, 0, 0, 0, 50,
      ControlMode.Manual, ControlBand.Coarse, none, 0⟩ true (by decide)

/-- Slot `MainWindow.process_qpbt_control_mode` of `humidistat_gui.py`
(lines 829-847): `checked` is the toggle-button state; checked switches
`control_mode` to `Auto`, unchecked switches it to `Manual` and calls
`set_actuators(False, False, False)`. Button-enable plumbing dropped.
Returns the updated state and the wire commands sent. -/
def process_qpbt_control_mode (checked : Bool) (s : State) :
    State × List String :=
  if checked then
    ({ s with control_mode := ControlMode.Auto }, [])
  else
    ({ s with control_mode := ControlMode.Manual },
      set_actuators s false false false)

/-- C5: switching the control mode from `Auto` to `Manual` (the toggle
handler runs unchecked) while the last-known actuator state has
`valve_1` on emits the all-off command `"a000"` exactly once, and the
stored mode becomes `Manual`. -/
theorem control_mode_to_manual_failsafe (s : State)
    (hmode : s.control_mode = ControlMode.Auto) (hv : s.valve_1 = true) :
    (process_qpbt_control_mode false s).2 = ["a000"] ∧
    (process_qpbt_control_mode false s).1.control_mode =
      ControlMode.Manual := by
  refine ⟨?_, rfl⟩
  show set_actuators s false false false = ["a000"]
  simp [set_actuators, hv, boolBit]

/-- Witness for C5 at a concrete `Auto` state with `valve_1` on. -/
theorem control_mode_to_manual_failsafe_witness :
    (process_qpbt_control_mode false
        ⟨0, true, false, false, 0, 0, 0, 0, 0, 0, 50,
          ControlMode.Auto, ControlBand.Coarse, none, 0⟩).2 = ["a000"] ∧
    (process_qpbt_control_mode false
        ⟨0, true, false, false, 0, 0, 0, 0, 0, 0, 50,
          ControlMode.Auto, ControlBand.Coarse, none, 0⟩).1.control_mode =
      ControlMode.Manual :=
  control_mode_to_manual_failsafe
    ⟨0, true, false, false, 0, 0, 0, 0, 0, 0, 50,
      ControlMode.Auto, ControlBand.Coarse, none, 0⟩ rfl rfl

/-- C10: burst commands are never de-duplicated: every call to
`burst_incr_RH` or `burst_decr_RH` sends exactly one wire command for any
configuration (the functions read no actuator state at all), the command
being `"b"` followed by the profile's three enable bits and the burst
length in decimal with no separators; at the default configuration the
commands are `"b1011000"` and `"b0111000"`. -/
theorem burst_commands_unconditional :
    (∀ c : Config,
      (burst_incr_RH c).length = 1 ∧ (burst_decr_RH c).length = 1 ∧
      burst_incr_RH c =
        ["b" ++ boolBit c.actors_incr_RH.ENA_valve_1
            ++ boolBit c.actors_incr_RH.ENA_valve_2
            ++ boolBit c.actors_incr_RH.ENA_pump
            ++ toString c.burst_incr_RH_length] ∧
      burst_decr_RH c =
        ["b" ++ boolBit c.actors_decr_RH.ENA_valve_1
            ++ boolBit c.actors_decr_RH.ENA_valve_2
            ++ boolBit c.actors_decr_RH.ENA_pump
            ++ toString c.burst_decr_RH_length]) ∧
    burst_incr_RH Config.init = ["b1011000"] ∧
    burst_decr_RH Config.init = ["b0111000"] := by
  refine ⟨fun c => ⟨rfl, rfl, rfl, rfl⟩, ?_, ?_⟩ <;> rfl

/-- Digit-run parser underlying `pyInt`: consumes decimal digits with
single underscores allowed between digits (Python 3.6+ literal grammar),
accumulating the value; rejects a leading, trailing, or doubled
underscore and any other character. `acc = none` means no digit has been
seen yet. -/
def digitsVal : List Char → Option ℕ → Option ℕ
  | [], acc => acc
  | ch :: rest, acc =>
    if ch.isDigit then
      match acc with
      | none => digitsVal rest (some (ch.toNat - 48))
      | some n => digitsVal rest (some (n * 10 + (ch.toNat - 48)))
    else if ch = '_' then
      match acc, rest with
      | some n, d :: _ =>
        if d.isDigit then digitsVal rest (some n) else none
      | _, _ => none
    else none

/-- Model of Python `int(text)` on ASCII input: optional surrounding
whitespace, an optional single `+`/`-` sign, then a nonempty run of
decimal digits with single underscores allowed between digits; any other
text (including a fractional number such as `"50.5"`) raises
`ValueError`, modelled as `none`. -/
def pyInt (text : String) : Option ℤ :=
  let chars :=
    ((text.toList.dropWhile Char.isWhitespace).reverse.dropWhile
        Char.isWhitespace).reverse
  match chars with
  | '+' :: rest => (digitsVal rest none).map fun n => (n : ℤ)
  | '-' :: rest => (digitsVal rest none).map fun n => -(n : ℤ)
  | rest => (digitsVal rest none).map fun n => (n : ℤ)

/-- Slot `MainWindow.process_qlin_setpoint` of `humidistat_gui.py`
(lines 817-827): parses the text box with `int()`, falls back to the
stored setpoint on `ValueError`, clamps to `[0, 100]`, echoes the result
back into the box (`"%u" % val`, which for `int` prints like `%d`) and
stores it. Returns the updated state and the echoed box text. -/
def process_qlin_setpoint (text : String) (s : State) : State × String :=
  let val := (pyInt text).getD s.setpoint
  let val := max val 0
  let val := min val 100
  ({ s with setpoint := val }, toString val)

/-- C6: for every integer `n` entered through the setpoint control (the
box text parses as `n`), the stored setpoint afterwards is
`min (max n 0) 100`: values below 0 clamp to 0 and values above 100
clamp to 100. -/
theorem setpoint_clamped (text : String) (n : ℤ) (s : State)
    (h : pyInt text = some n) :
    (process_qlin_setpoint text s).1.setpoint = min (max n 0) 100 := by
  simp [process_qlin_setpoint, h]

/-- Witness for C6: entering `"150"` stores a setpoint of 100. -/
theorem setpoint_clamped_witness :
    (process_qlin_setpoint "150"
        ⟨0, false, false, false, 0, 0, 0, 0, 0, 0, 50,
          ControlMode.Manual, ControlBand.Coarse, none, 0⟩).1.setpoint =
      min (max 150 0) 100 :=
  setpoint_clamped "150" 150
    ⟨0, false, false, false, 0, 0, 0, 0, 0, 0, 50,
      ControlMode.Manual, ControlBand.Coarse, none, 0⟩ (by decide)

/-- C9: if the setpoint box holds anything `int()` rejects — including a
fractional value such as `"50.5"` — the write is rejected: provided the
stored setpoint is in `[0, 100]` (which every write path maintains), the
whole state is unchanged and the box is rewritten with the previous
value. -/
theorem setpoint_invalid_text_rejected (text : String) (s : State)
    (hparse : pyInt text = none)
    (hlo : 0 ≤ s.setpoint) (hhi : s.setpoint ≤ 100) :
    (process_qlin_setpoint text s).1 = s ∧
    (process_qlin_setpoint text s).2 = toString s.setpoint := by
  have hval : min (max s.setpoint 0) 100 = s.setpoint := by omega
  constructor
  · show ({ s with setpoint := min (max ((pyInt text).getD s.setpoint) 0) 100
        : State }) = s
    rw [hparse]
    show ({ s with setpoint := min (max s.setpoint 0) 100 : State }) = s
    rw [hval]
  · show toString (min (max ((pyInt text).getD s.setpoint) 0) 100) = _
    rw [hparse]
    show toString (min (max s.setpoint 0) 100) = _
    rw [hval]

/-- Witness for C9: the fractional text `"50.5"` leaves a concrete state
with setpoint 50 untouched and echoes `"50"`. -/
theorem setpoint_invalid_text_rejected_witness :
    (process_qlin_setpoint "50.5"
        ⟨0, false, false, false, 0, 0, 0, 0, 0, 0, 50,
          ControlMode.Manual, ControlBand.Coarse, none, 0⟩).1 =
      ⟨0, false, false, false, 0, 0, 0, 0, 0, 0, 50,
        ControlMode.Manual, ControlBand.Coarse, none, 0⟩ ∧
    (process_qlin_setpoint "50.5"
        ⟨0, false, false, false, 0, 0, 0, 0, 0, 0, 50,
          ControlMode.Manual, ControlBand.Coarse, none, 0⟩).2 =
      toString (50 : ℤ) :=
  setpoint_invalid_text_rejected "50.5"
    ⟨0, false, false, false, 0, 0, 0, 0, 0, 0, 50,
      ControlMode.Manual, ControlBand.Coarse, none, 0⟩
    (by decide) (by decide) (by decide)

/-- Slot `MainWindow.process_qlin_fineband_dLO` of `humidistat_gui.py`
(lines 881-890): `parsed` models `float(text)` (`none` on `ValueError`,
falling back to the stored value); the result is forced non-positive via
`val = -(abs(val))` and stored. Box echo dropped. -/
def process_qlin_fineband_dLO (parsed : Option ℚ) (c : Config) : Config :=
  let val := parsed.getD c.fineband_dLO
  { c with fineband_dLO := -|val| }

/-- Slot `MainWindow.process_qlin_fineband_dHI` of `humidistat_gui.py`
(lines 892-901): the parsed value is forced non-negative via
`val = max(val, 0)` and stored. -/
def process_qlin_fineband_dHI (parsed : Option ℚ) (c : Config) : Config :=
  let val := parsed.getD c.fineband_dHI
  { c with fineband_dHI := max val 0 }

/-- Slot `MainWindow.process_qlin_deadband_dLO` of `humidistat_gui.py`
(lines 903-912): forced non-positive via `val = -(abs(val))`. -/
def process_qlin_deadband_dLO (parsed : Option ℚ) (c : Config) : Config :=
  let val := parsed.getD c.deadband_dLO
  { c with deadband_dLO := -|val| }

/-- Slot `MainWindow.process_qlin_deadband_dHI` of `humidistat_gui.py`
(lines 914-923): forced non-negative via `val = max(val, 0)`. -/
def process_qlin_deadband_dHI (parsed : Option ℚ) (c : Config) : Config :=
  let val := parsed.getD c.deadband_dHI
  { c with deadband_dHI := max val 0 }

/-- Slot `MainWindow.process_qlin_burst_update_period` of
`humidistat_gui.py` (lines 925-934): `parsed` models `int(text)`; forced
to at least 1 second via `val = max(val, 1)`. -/
def process_qlin_burst_update_period (parsed : Option ℤ) (c : Config) :
    Config :=
  let val := parsed.getD c.burst_update_period
  { c with burst_update_period := max val 1 }

/-- Slot `MainWindow.process_qlin_burst_incr_RH_length` of
`humidistat_gui.py` (lines 936-945): forced to at least 500 ms. -/
def process_qlin_burst_incr_RH_length (parsed : Option ℤ) (c : Config) :
    Config :=
  let val := parsed.getD c.burst_incr_RH_length
  { c with burst_incr_RH_length := max val 500 }

/-- Slot `MainWindow.process_qlin_burst_decr_RH_length` of
`humidistat_gui.py` (lines 947-956): forced to at least 500 ms. -/
def process_qlin_burst_decr_RH_length (parsed : Option ℤ) (c : Config) :
    Config :=
  let val := parsed.getD c.burst_decr_RH_length
  { c with burst_decr_RH_length := max val 500 }

/-- The §3 bound invariant on `Config`: `fineband_dHI ≥ 0`,
`fineband_dLO ≤ 0`, `deadband_dHI ≥ 0`, `deadband_dLO ≤ 0`,
`burst_update_period ≥ 1` s, and both burst lengths ≥ 500 ms. -/
def configInv (c : Config) : Prop :=
  0 ≤ c.fineband_dHI ∧ c.fineband_dLO ≤ 0 ∧
  0 ≤ c.deadband_dHI ∧ c.deadband_dLO ≤ 0 ∧
  1 ≤ c.burst_update_period ∧
  500 ≤ c.burst_incr_RH_length ∧ 500 ≤ c.burst_decr_RH_length

instance configInv.instDecidable (c : Config) : Decidable (configInv c) := by
  unfold configInv
  infer_instance

/-- C7: every single bandwidth or burst field edit processed through the
GUI handlers preserves the §3 bound invariant: starting from a `Config`
satisfying it, any handler applied to any parse result (valid or not)
yields a `Config` still satisfying it — dLO values are forced to
`-|value|`, dHI values to `max value 0`, the period and lengths to their
minima. -/
theorem config_edit_preserves_bounds (c : Config) (hc : configInv c) :
    (∀ q : Option ℚ, configInv (process_qlin_fineband_dLO q c)) ∧
    (∀ q : Option ℚ, configInv (process_qlin_fineband_dHI q c)) ∧
    (∀ q : Option ℚ, configInv (process_qlin_deadband_dLO q c)) ∧
    (∀ q : Option ℚ, configInv (process_qlin_deadband_dHI q c)) ∧
    (∀ q : Option ℤ, configInv (process_qlin_burst_update_period q c)) ∧
    (∀ q : Option ℤ, configInv (process_qlin_burst_incr_RH_length q c)) ∧
    (∀ q : Option ℤ, configInv (process_qlin_burst_decr_RH_length q c)) := by
  obtain ⟨h1, h2, h3, h4, h5, h6, h7⟩ := hc
  refine ⟨fun q => ?_, fun q => ?_, fun q => ?_, fun q => ?_,
    fun q => ?_, fun q => ?_, fun q => ?_⟩
  · exact ⟨h1, neg_nonpos.mpr (abs_nonneg _), h3, h4, h5, h6, h7⟩
  · exact ⟨le_max_right _ _, h2, h3, h4, h5, h6, h7⟩
  · exact ⟨h1, h2, h3, neg_nonpos.mpr (abs_nonneg _), h5, h6, h7⟩
  · exact ⟨h1, h2, le_max_right _ _, h4, h5, h6, h7⟩
  · exact ⟨h1, h2, h3, h4, le_max_right _ _, h6, h7⟩
  · exact ⟨h1, h2, h3, h4, h5, le_max_right _ _, h7⟩
  · exact ⟨h1, h2, h3, h4, h5, h6, le_max_right _ _⟩

/-- Witness for C7: the default configuration satisfies the invariant,
and editing `fineband_dLO` with the (positive) parsed value 3 keeps it
satisfied (the handler stores −3). -/
theorem config_edit_preserves_bounds_witness :
    configInv Config.init ∧
    configInv (process_qlin_fineband_dLO (some 3) Config.init) :=
  ⟨by decide, (config_edit_preserves_bounds Config.init (by decide)).1 (some 3)⟩

/-- Method `MainWindow.load_config_from_file` of `humidistat_gui.py`
(lines 1016-1080), success path of the parse block (lines 1043-1074):
the fourteen values read from the INI file via
`getboolean`/`getint`/`getfloat` (taken here as arguments, already
parsed) are assigned to the `Config` fields directly — no clamping, no
sign normalization, no containment check. -/
def load_config_from_file (iv1 iv2 ipm dv1 dv2 dpm : Bool) (sensor : ℤ)
    (fhi flo dhi dlo : ℚ) (period ilen dlen : ℤ) : Config where
  actors_incr_RH := ⟨iv1, iv2, ipm⟩
  actors_decr_RH := ⟨dv1, dv2, dpm⟩
  act_on_sensor_no := sensor
  fineband_dHI := fhi
  fineband_dLO := flo
  deadband_dHI := dhi
  deadband_dLO := dlo
  burst_update_period := period
  burst_incr_RH_length := ilen
  burst_decr_RH_length := dlen

/-- C8: loading a configuration file applies the parsed band thresholds
and burst settings verbatim — every stored field equals the parsed value
unchanged — and consequently a loaded file can establish values that
violate the §3 bounds (here: a negative `fineband_dHI`, a positive
`fineband_dLO`, a zero period and 100 ms burst lengths). -/
theorem load_config_applies_verbatim :
    (∀ (iv1 iv2 ipm dv1 dv2 dpm : Bool) (sensor : ℤ)
        (fhi flo dhi dlo : ℚ) (period ilen dlen : ℤ),
      (load_config_from_file iv1 iv2 ipm dv1 dv2 dpm sensor fhi flo dhi dlo
          period ilen dlen).fineband_dHI = fhi ∧
      (load_config_from_file iv1 iv2 ipm dv1 dv2 dpm sensor fhi flo dhi dlo
          period ilen dlen).fineband_dLO = flo ∧
      (load_config_from_file iv1 iv2 ipm dv1 dv2 dpm sensor fhi flo dhi dlo
          period ilen dlen).deadband_dHI = dhi ∧
      (load_config_from_file iv1 iv2 ipm dv1 dv2 dpm sensor fhi flo dhi dlo
          period ilen dlen).deadband_dLO = dlo ∧
      (load_config_from_file iv1 iv2 ipm dv1 dv2 dpm sensor fhi flo dhi dlo
          period ilen dlen).burst_update_period = period ∧
      (load_config_from_file iv1 iv2 ipm dv1 dv2 dpm sensor fhi flo dhi dlo
          period ilen dlen).burst_incr_RH_length = ilen ∧
      (load_config_from_file iv1 iv2 ipm dv1 dv2 dpm sensor fhi flo dhi dlo
          period ilen dlen).burst_decr_RH_length = dlen) ∧
    ¬ configInv
        (load_config_from_file true false true false true true 1
          (-3) 2 1 (-1) 0 100 100) :=
  ⟨fun _ _ _ _ _ _ _ _ _ _ _ _ _ _ =>
    ⟨rfl, rfl, rfl, rfl, rfl, rfl, rfl⟩, by decide⟩

/-- Modelled from the spec: the control-band classification of §4.3. The
acquisition loop that computes the band is not among the sources here
(only the `ControlBand` enum of `humidistat_qdev.py` and the GUI that
displays the band are), so the classification follows the spec's words:
`Dead` if `deadband_dLO < error < deadband_dHI`; else `Fine` if
`fineband_dLO < error < fineband_dHI`; else `Coarse`, all four
comparisons strict, the dead-band check first. -/
def classifyBand (c : Config) (error : ℚ) : ControlBand :=
  if c.deadband_dLO < error ∧ error < c.deadband_dHI then ControlBand.Dead
  else if c.fineband_dLO < error ∧ error < c.fineband_dHI then
    ControlBand.Fine
  else ControlBand.Coarse

/-- Modelled from the spec: the control error of §4.3, `humidity −
setpoint` with the humidity taken from sensor 1 or sensor 2 according to
`act_on_sensor` (the acquisition loop computing it is not among the
sources here). -/
def errorOf (c : Config) (humi_1 humi_2 : ℚ) (setpoint : ℤ) : ℚ :=
  (if c.act_on_sensor_no = 1 then humi_1 else humi_2) - (setpoint : ℚ)

/-- Modelled from the spec: one band-classification step of §4.3, the
error selection composed with the band decision. -/
def computeControlBand (c : Config) (humi_1 humi_2 : ℚ) (setpoint : ℤ) :
    ControlBand :=
  classifyBand c (errorOf c humi_1 humi_2 setpoint)

/-- C1 counterexample: the claim's tail ("for every configuration an
error exactly equal to a bound falls into the next wider band; error =
deadband_dHI classifies as Fine") is false: take the default
configuration with `deadband_dHI` widened to 2 (so it satisfies the §3
sign bounds and equals `fineband_dHI`), humidity 52 on sensor 1 and
setpoint 50. The error is 2 = `deadband_dHI`, yet the band is `Coarse`,
not `Fine`, because the strict `error < fineband_dHI` check also fails
at 2. -/
theorem band_bound_counterexample :
    errorOf { Config.init with deadband_dHI := 2 } 52 52 50 =
      ({ Config.init with deadband_dHI := 2 } : Config).deadband_dHI ∧
    configInv { Config.init with deadband_dHI := 2 } ∧
    computeControlBand { Config.init with deadband_dHI := 2 } 52 52 50 ≠
      ControlBand.Fine ∧
    computeControlBand { Config.init with deadband_dHI := 2 } 52 52 50 =
      ControlBand.Coarse := by
  have herr : errorOf { Config.init with deadband_dHI := 2 } 52 52 50 = 2 := by
    norm_num [errorOf, Config.init]
  have hband :
      computeControlBand { Config.init with deadband_dHI := 2 } 52 52 50 =
        ControlBand.Coarse := by
    unfold computeControlBand
    rw [herr]
    norm_num [classifyBand, Config.init]
  refine ⟨by rw [herr], by decide, ?_, hband⟩
  rw [hband]
  decide

/-- C1 amended: with `error = humidity − setpoint` (humidity from sensor
1 or 2 per `act_on_sensor`), the band is `Dead` iff
`deadband_dLO < error < deadband_dHI`, else `Fine` iff
`fineband_dLO < error < fineband_dHI`, else `Coarse`; all four
comparisons are strict, so an error exactly equal to a bound is excluded
from that band (`error = deadband_dHI` is never `Dead`,
`error = fineband_dLO` is never `Fine`); it falls into the next wider
band provided it lies strictly inside that wider band
(`error = deadband_dHI` gives `Fine` when
`fineband_dLO < deadband_dHI < fineband_dHI`, and `error = fineband_dLO`
gives `Coarse` when it is not strictly inside the dead band) — but not
for every configuration, as the counterexample shows. -/
theorem band_classification_amended (c : Config) (e : ℚ) :
    (classifyBand c e = ControlBand.Dead ↔
      c.deadband_dLO < e ∧ e < c.deadband_dHI) ∧
    (classifyBand c e = ControlBand.Fine ↔
      ¬(c.deadband_dLO < e ∧ e < c.deadband_dHI) ∧
      (c.fineband_dLO < e ∧ e < c.fineband_dHI)) ∧
    (e = c.deadband_dHI → classifyBand c e ≠ ControlBand.Dead) ∧
    (e = c.fineband_dLO → classifyBand c e ≠ ControlBand.Fine) ∧
    (e = c.deadband_dHI → c.fineband_dLO < e → e < c.fineband_dHI →
      classifyBand c e = ControlBand.Fine) ∧
    (e = c.fineband_dLO → ¬(c.deadband_dLO < e ∧ e < c.deadband_dHI) →
      classifyBand c e = ControlBand.Coarse) ∧
    (∀ (h1 h2 : ℚ) (sp : ℤ),
      computeControlBand c h1 h2 sp = classifyBand c (errorOf c h1 h2 sp)) := by
  refine ⟨?_, ?_, ?_, ?_, ?_, ?_, fun h1 h2 sp => rfl⟩
  · unfold classifyBand
    split_ifs with hd hf <;> simp_all
  · unfold classifyBand
    split_ifs with hd hf <;> simp_all
  · intro he
    subst he
    unfold classifyBand
    split_ifs with hd hf <;> simp_all
  · intro he
    subst he
    unfold classifyBand
    split_ifs with hd hf <;> simp_all
  · intro he hlo hhi
    subst he
    unfold classifyBand
    split_ifs with hd hf <;> simp_all
  · intro he hnd
    subst he
    unfold classifyBand
    split_ifs with hd hf <;> simp_all

/-- Witness for C1's amended theorem: at the default configuration an
error of −2 sits exactly on `fineband_dLO`, outside the dead band, and
classifies as `Coarse`. -/
theorem band_classification_amended_witness :
    classifyBand Config.init (-2) = ControlBand.Coarse :=
  (band_classification_amended Config.init (-2)).2.2.2.2.2.1
    (by decide) (by decide)

end Humidistat
